import Mathlib

/-!
Shallow embedding of the Gemini chatbot relay service (`backend.py`):
data model (pydantic models with their field validators), the `/chat`
endpoint pipeline (model resolution, lazy handle initialization, history
formatting, provider call, synthetic usage accounting), the `/health`
endpoint and the `/models` endpoint.

The external provider (`google.generativeai`) is modelled as an
environment of two fallible functions: constructing a model handle
(`genai.GenerativeModel`) and the single blocking generation round trip
(`chat.send_message`).  Machine-level details (timestamps, network) are
outside the embedding; every function here is executable.
-/

namespace Gemini

/-- Python `str.split()` / `str.strip()` whitespace characters. -/
def isPySpace (c : Char) : Bool :=
  c = ' ' || c = '\t' || c = '\n' || c = '\r' || c = '\x0b' || c = '\x0c'

/-- Counts the maximal nonempty whitespace-free runs of a character list;
the boolean records whether the previous character was inside a word. -/
def countWordsAux : List Char → Bool → Nat
  | [], _ => 0
  | c :: cs, inWord =>
    if isPySpace c then countWordsAux cs false
    else (if inWord then 0 else 1) + countWordsAux cs true

/-- `len(s.split())`: Python `split` with no separator splits on runs of
whitespace and drops empty pieces, so its length is the number of maximal
nonempty whitespace-free runs. -/
def pyWordCount (s : String) : Nat :=
  countWordsAux s.toList false

/-- `" ".join([m.content for m in messages])` over the raw content strings. -/
def joinContents (contents : List String) : String :=
  String.intercalate " " contents

/-- `MessageRole(str, Enum)` from `backend.py`. -/
inductive MessageRole where
  | user
  | assistant
  | system
deriving DecidableEq, Repr

/-- `.value` of the Python enum member. -/
def MessageRole.value : MessageRole → String
  | .user => "user"
  | .assistant => "assistant"
  | .system => "system"

/-- `ChatMessage(BaseModel)`: a role together with validated content. -/
structure ChatMessage where
  role : MessageRole
  content : String
deriving DecidableEq, Repr

/-- Validation failures raised by the pydantic field validators. -/
inductive ValidationError where
  | blankContent
  | emptyMessages
  | missingCount
deriving DecidableEq, Repr

/-- The `content_not_empty` validator: `if not v.strip(): raise ValueError`.
`v.strip()` is falsy exactly when every character of `v` is whitespace
(including the empty string). -/
def content_not_empty (v : String) : Except ValidationError String :=
  if v.toList.all isPySpace then .error .blankContent else .ok v

/-- Constructing a `ChatMessage`: pydantic runs `content_not_empty`. -/
def mkChatMessage (role : MessageRole) (content : String) :
    Except ValidationError ChatMessage :=
  match content_not_empty content with
  | .error e => .error e
  | .ok v => .ok { role := role, content := v }

/-- `ChatRequest(BaseModel)`; `model` is `Optional[str]` whose pydantic
default, when the field is absent from the payload, is `"gemini-1.5-flash"`. -/
structure ChatRequest where
  messages : List ChatMessage
  model : Option String
deriving DecidableEq, Repr

/-- The pydantic default for the `model` field of `ChatRequest`. -/
def chatRequestModelDefault : Option String := some "gemini-1.5-flash"

/-- The `messages_not_empty` validator: `if len(v) == 0: raise ValueError`. -/
def messages_not_empty (v : List ChatMessage) :
    Except ValidationError (List ChatMessage) :=
  if v.length = 0 then .error .emptyMessages else .ok v

/-- Constructing a `ChatRequest`: pydantic runs `messages_not_empty`. -/
def mkChatRequest (messages : List ChatMessage) (model : Option String) :
    Except ValidationError ChatRequest :=
  match messages_not_empty messages with
  | .error e => .error e
  | .ok v => .ok { messages := v, model := model }

/-- The synthetic usage dictionary built by `/chat`. -/
structure Usage where
  prompt_tokens : Nat
  completion_tokens : Nat
  total_tokens : Nat
deriving DecidableEq, Repr

/-- `ChatResponse(BaseModel)` minus the wall-clock `created_at` field. -/
structure ChatResponse where
  response : String
  usage : Usage
deriving DecidableEq, Repr

/-- `HTTPException(status_code=..., detail=...)`. -/
structure HTTPException where
  status_code : Nat
  detail : String
deriving DecidableEq, Repr

/-- One entry of the `history` list handed to `model.start_chat`:
`{"role": msg.role.value, "parts": [msg.content]}`. -/
structure GeminiTurn where
  role : String
  parts : List String
deriving DecidableEq, Repr

/-- A provider round trip actually performed: the formatted prior-turn
history given to `start_chat` and the text given to `send_message`. -/
abbrev ProviderCall := List GeminiTurn × String

/-- The opaque external provider: `genai.GenerativeModel` construction and
the `send_message` round trip, each either succeeding or raising (the
exception rendered by `str(e)`). -/
structure Env where
  initModel : String → Except String Unit
  generate : List GeminiTurn → String → Except String String

/-- `SUPPORTED_MODELS` keys (the dict maps each name to itself, and the
code only ever tests key membership). -/
def SUPPORTED_MODELS : List String :=
  ["gemini-1.5-flash", "gemini-1.5-pro", "gemini-2.0-flash-lite",
   "gemini-2.0-flash"]

/-- `DEFAULT_MODEL`. -/
def DEFAULT_MODEL : String := "gemini-1.5-flash"

/-- The `model_instances` dict: model identifier ↦ handle, where the stored
value `none` models Python `None` (a failed default initialization) and
`some ()` a live `GenerativeModel` handle. -/
abbrev Cache := List (String × Option Unit)

/-- Python dict lookup on the association-list model of `model_instances`
(`d[k]`, and `k in d` is its `isSome`): the first binding of the key. -/
def dictGet : Cache → String → Option (Option Unit)
  | [], _ => none
  | (k, v) :: tl, name => if name = k then some v else dictGet tl name

/-- Module-load initialization of `model_instances`: the default model is
seeded, to `None` when construction raises. -/
def startupCache (env : Env) : Cache :=
  match env.initModel DEFAULT_MODEL with
  | .ok _ => [(DEFAULT_MODEL, some ())]
  | .error _ => [(DEFAULT_MODEL, none)]

/-- `model_name = request.model; if model_name not in SUPPORTED_MODELS:
model_name = DEFAULT_MODEL`.  A `None` model is never a dict key. -/
def resolveModel (m : Option String) : String :=
  match m with
  | some name => if name ∈ SUPPORTED_MODELS then name else DEFAULT_MODEL
  | none => DEFAULT_MODEL

/-- Lazy initialization in `/chat`: if the resolved name has no cache
entry, try to construct its handle; on failure fall back to the default
model name (without touching the cache). Returns the final model name and
the updated cache. -/
def lazyInit (env : Env) (cache : Cache) (name : String) : String × Cache :=
  if (dictGet cache name).isNone then
    match env.initModel name with
    | .ok _ => (name, (name, some ()) :: cache)
    | .error _ => (DEFAULT_MODEL, cache)
  else (name, cache)

/-- History formatting: `[{"role": msg.role.value, "parts": [msg.content]}
for msg in request.messages[:-1]]`. -/
def formatHistory (messages : List ChatMessage) : List GeminiTurn :=
  messages.dropLast.map (fun msg => { role := msg.role.value, parts := [msg.content] })

/-- The usage dict of `/chat`: whitespace word counts of all message
contents joined by single spaces, of the generated text, and their sum. -/
def mkUsage (messages : List ChatMessage) (text : String) : Usage :=
  { prompt_tokens := pyWordCount (joinContents (messages.map ChatMessage.content)),
    completion_tokens := pyWordCount text,
    total_tokens := pyWordCount (joinContents (messages.map ChatMessage.content))
      + pyWordCount text }

/-- The 503 detail text naming the unavailable model:
`f"Model {model_name} is not available. Please check your API key and permissions."`. -/
def unavailableDetail (model_name : String) : String :=
  "Model " ++ model_name ++
    " is not available. Please check your API key and permissions."

/-- Outcome of one `/chat` call: a successful response, a raised
`HTTPException`, or an exception escaping the handler uncaught (a Python
error raised outside the endpoint's `try` block). -/
inductive ChatOutcome where
  | ok (resp : ChatResponse)
  | httpError (e : HTTPException)
  | pythonError (msg : String)
deriving DecidableEq, Repr

/-- `true` exactly on a successful outcome. -/
def ChatOutcome.isOk : ChatOutcome → Bool
  | .ok _ => true
  | _ => false

/-- `true` exactly on an uncaught Python exception. -/
def ChatOutcome.isPythonError : ChatOutcome → Bool
  | .pythonError _ => true
  | _ => false

/-- The `/chat` endpoint body, given the provider environment and the
current `model_instances` cache.  Returns the outcome, the cache after
the call, and the list of provider round trips performed.  The
`model = model_instances[model_name]` subscript sits outside the `try`
block, so a missing key would surface as an uncaught `KeyError`. -/
def chat (env : Env) (cache0 : Cache) (request : ChatRequest) :
    ChatOutcome × Cache × List ProviderCall :=
  let r := lazyInit env cache0 (resolveModel request.model)
  let model_name := r.1
  let cache := r.2
  match dictGet cache model_name with
  | none => (.pythonError ("KeyError: " ++ model_name), cache, [])
  | some none =>
      (.httpError { status_code := 503, detail := unavailableDetail model_name },
       cache, [])
  | some (some _) =>
      if request.messages.isEmpty then
        (.httpError { status_code := 400, detail := "No messages provided" }, cache, [])
      else
        match request.messages.getLast? with
        | none =>
            -- unreachable (messages nonempty); `messages[-1]` would raise an
            -- IndexError inside the `try` block, caught and rendered as a 500
            (.httpError { status_code := 500, detail := "list index out of range" },
             cache, [])
        | some last_message =>
            let history := formatHistory request.messages
            match env.generate history last_message.content with
            | .ok text =>
                (.ok { response := text, usage := mkUsage request.messages text },
                 cache, [(history, last_message.content)])
            | .error e =>
                (.httpError { status_code := 500, detail := e }, cache,
                 [(history, last_message.content)])

/-- `HealthResponse(BaseModel)` minus the wall-clock timestamp. -/
structure HealthResponse where
  status : String
  model : String
  available_models : List String
  version : String
deriving DecidableEq, Repr

/-- The `/health` endpoint: unconditionally healthy, reporting the default
model, the identifiers whose cached instance is not `None`, and the fixed
version default. -/
def health_check (cache : Cache) : HealthResponse :=
  { status := "healthy",
    model := DEFAULT_MODEL,
    available_models := (cache.filter (fun p => p.2.isSome)).map (fun p => p.1),
    version := "1.0.0" }

/-- `ModelInfo(BaseModel)`. -/
structure ModelInfo where
  name : String
  display_name : String
  description : Option String
deriving DecidableEq, Repr

/-- `ModelsResponse(BaseModel)` after validation. -/
structure ModelsResponse where
  available_models : List ModelInfo
  count : Nat
deriving DecidableEq, Repr

/-- The `set_count` before-validator on `count`: ignores the supplied value
and returns `len(info.data.get('available_models', []))`. -/
def set_count (available_models : List ModelInfo) (_v : Nat) : Nat :=
  available_models.length

/-- Constructing a `ModelsResponse`.  `count` is declared required
(`Field(...)`); pydantic v2 does not run field validators for a field
absent from the input, so a construction that omits `count` fails with a
missing-field error, and a supplied `count` is overwritten by `set_count`. -/
def mkModelsResponse (available_models : List ModelInfo) (count : Option Nat) :
    Except ValidationError ModelsResponse :=
  match count with
  | none => .error .missingCount
  | some v => .ok { available_models := available_models,
                    count := set_count available_models v }

end Gemini

namespace Gemini

/-- Inversion for a successful `/chat` call: success means the last message
existed, the provider returned the response text on the formatted history,
and the usage is the synthetic one. -/
theorem chat_ok_inv (env : Env) (cache : Cache) (req : ChatRequest)
    (resp : ChatResponse) (h : (chat env cache req).1 = .ok resp) :
    ∃ last, req.messages.getLast? = some last ∧
      env.generate (formatHistory req.messages) last.content = .ok resp.response ∧
      resp.usage = mkUsage req.messages resp.response := by
  rcases hl : lazyInit env cache (resolveModel req.model) with ⟨mn, cache2⟩
  rcases hk : dictGet cache2 mn with _ | inst
  · simp [chat, hl, hk] at h
  rcases inst with _ | u
  · simp [chat, hl, hk] at h
  rcases hlast : req.messages.getLast? with _ | last
  · have : req.messages = [] := List.getLast?_eq_none_iff.mp hlast
    simp [chat, hl, hk, this] at h
  have hne : req.messages ≠ [] := by
    intro hnil
    rw [hnil] at hlast
    simp at hlast
  have hemp : req.messages.isEmpty = false := by
    simpa [List.isEmpty_iff] using hne
  rcases hg : env.generate (formatHistory req.messages) last.content with e | text
  · simp [chat, hl, hk, hlast, hemp, hg] at h
  · simp [chat, hl, hk, hlast, hemp, hg] at h
    subst h
    exact ⟨last, rfl, hg, rfl⟩

/-- C1: on provider success, `prompt_tokens` is the whitespace word count
of all message contents joined by single spaces, `completion_tokens` the
word count of the generated text, and `total_tokens` their sum. -/
theorem chat_usage_word_counts (env : Env) (cache : Cache) (req : ChatRequest)
    (resp : ChatResponse) (h : (chat env cache req).1 = .ok resp) :
    resp.usage.prompt_tokens
        = pyWordCount (joinContents (req.messages.map ChatMessage.content)) ∧
    resp.usage.completion_tokens = pyWordCount resp.response ∧
    resp.usage.total_tokens
        = resp.usage.prompt_tokens + resp.usage.completion_tokens := by
  obtain ⟨last, -, -, hu⟩ := chat_ok_inv env cache req resp h
  rw [hu]
  exact ⟨rfl, rfl, rfl⟩

/-- C1 witness: messages `["hello world", "hi"]` with generated text
`"hello there"` yield counts 3, 2 and 5. -/
theorem chat_usage_word_counts_witness :
    (3 : Nat) = pyWordCount (joinContents
        (([{ role := .user, content := "hello world" },
           { role := .user, content := "hi" }] : List ChatMessage).map
          ChatMessage.content)) ∧
    (2 : Nat) = pyWordCount "hello there" ∧
    (5 : Nat) = 3 + 2 :=
  chat_usage_word_counts
    { initModel := fun _ => .ok (), generate := fun _ _ => .ok "hello there" }
    [(DEFAULT_MODEL, some ())]
    { messages := [{ role := .user, content := "hello world" },
                   { role := .user, content := "hi" }],
      model := some "gemini-1.5-flash" }
    { response := "hello there",
      usage := { prompt_tokens := 3, completion_tokens := 2, total_tokens := 5 } }
    rfl

/-- C2: every provider round trip performed by `/chat` receives as history
exactly the messages except the last, in order, each as a role/parts turn,
and the last message's content as the new turn. -/
theorem chat_history_formatting (env : Env) (cache : Cache) (req : ChatRequest)
    (hist : List GeminiTurn) (turn : String)
    (h : (hist, turn) ∈ (chat env cache req).2.2) :
    hist = req.messages.dropLast.map
        (fun msg => { role := msg.role.value, parts := [msg.content] }) ∧
    (req.messages.getLast?).map ChatMessage.content = some turn := by
  rcases hl : lazyInit env cache (resolveModel req.model) with ⟨mn, cache2⟩
  rcases hk : dictGet cache2 mn with _ | inst
  · simp [chat, hl, hk] at h
  rcases inst with _ | u
  · simp [chat, hl, hk] at h
  rcases hlast : req.messages.getLast? with _ | last
  · have : req.messages = [] := List.getLast?_eq_none_iff.mp hlast
    simp [chat, hl, hk, this] at h
  have hne : req.messages ≠ [] := by
    intro hnil
    rw [hnil] at hlast
    simp at hlast
  have hemp : req.messages.isEmpty = false := by
    simpa [List.isEmpty_iff] using hne
  rcases hg : env.generate (formatHistory req.messages) last.content with e | text <;>
  · simp [chat, hl, hk, hlast, hemp, hg] at h
    refine ⟨by rw [h.1]; rfl, by simp [h.2]⟩

/-- C2 witness: for `[user:"a", assistant:"b", user:"c"]` the provider is
called with exactly the first two messages as history and `"c"` as turn. -/
theorem chat_history_formatting_witness :
    ([{ role := "user", parts := ["a"] },
      { role := "assistant", parts := ["b"] }] : List GeminiTurn)
        = (([{ role := .user, content := "a" },
             { role := .assistant, content := "b" },
             { role := .user, content := "c" }] : List ChatMessage)).dropLast.map
            (fun msg => { role := msg.role.value, parts := [msg.content] }) ∧
    (([{ role := .user, content := "a" },
       { role := .assistant, content := "b" },
       { role := .user, content := "c" }] : List ChatMessage)).getLast?.map
          ChatMessage.content = some "c" :=
  chat_history_formatting
    { initModel := fun _ => .ok (), generate := fun _ _ => .ok "hello" }
    [(DEFAULT_MODEL, some ())]
    { messages := [{ role := .user, content := "a" },
                   { role := .assistant, content := "b" },
                   { role := .user, content := "c" }],
      model := some "gemini-1.5-flash" }
    [{ role := "user", parts := ["a"] }, { role := "assistant", parts := ["b"] }]
    "c"
    (by decide)

/-- C3: a request whose model is absent (pydantic default) or not in the
allow-list resolves to the default identifier; with a usable default
handle and a healthy provider the call still succeeds. -/
theorem chat_unsupported_model_uses_default (env : Env) (cache : Cache)
    (msgs : List ChatMessage) (m : Option String)
    (hm : ∀ name, m = some name → name ∉ SUPPORTED_MODELS)
    (hdef : dictGet cache DEFAULT_MODEL = some (some ()))
    (hmsgs : msgs ≠ [])
    (hgen : ∀ hist turn, (env.generate hist turn).isOk = true) :
    resolveModel m = DEFAULT_MODEL ∧
    resolveModel chatRequestModelDefault = DEFAULT_MODEL ∧
    ((chat env cache { messages := msgs, model := m }).1).isOk = true := by
  have hres : resolveModel m = DEFAULT_MODEL := by
    cases m with
    | none => rfl
    | some name => simp [resolveModel, hm name rfl]
  refine ⟨hres, rfl, ?_⟩
  have hli : lazyInit env cache (resolveModel m) = (DEFAULT_MODEL, cache) := by
    rw [hres]
    simp [lazyInit, hdef]
  rcases hlast : msgs.getLast? with _ | last
  · exact absurd (List.getLast?_eq_none_iff.mp hlast) hmsgs
  have hemp : msgs.isEmpty = false := by simpa [List.isEmpty_iff] using hmsgs
  rcases hg : env.generate (formatHistory msgs) last.content with e | text
  · have hok := hgen (formatHistory msgs) last.content
    rw [hg] at hok
    simp [Except.isOk, Except.toBool] at hok
  · simp [chat, hli, hdef, hemp, hlast, hg, ChatOutcome.isOk]

/-- C3 witness: the unsupported identifier "gpt-4" is replaced by the
default model and the call succeeds against a healthy provider. -/
theorem chat_unsupported_model_uses_default_witness :
    resolveModel (some "gpt-4") = DEFAULT_MODEL ∧
    resolveModel chatRequestModelDefault = DEFAULT_MODEL ∧
    ((chat { initModel := fun _ => .ok (), generate := fun _ _ => .ok "sure" }
        [(DEFAULT_MODEL, some ())]
        { messages := [{ role := .user, content := "hello" }],
          model := some "gpt-4" }).1).isOk = true :=
  chat_unsupported_model_uses_default
    { initModel := fun _ => .ok (), generate := fun _ _ => .ok "sure" }
    [(DEFAULT_MODEL, some ())]
    [{ role := .user, content := "hello" }]
    (some "gpt-4")
    (by intro name h; injection h with h; subst h; decide)
    rfl
    (by decide)
    (fun hist turn => rfl)

/-- C4: an empty message list is rejected by the pydantic validator at
construction, the endpoint guard itself answers 400, and no provider
round trip is performed. -/
theorem chat_empty_messages_rejected (env : Env) (cache : Cache) (m : Option String)
    (hhandle : dictGet (lazyInit env cache (resolveModel m)).2
        (lazyInit env cache (resolveModel m)).1 = some (some ())) :
    mkChatRequest [] m = .error .emptyMessages ∧
    (chat env cache { messages := [], model := m }).1
      = .httpError { status_code := 400, detail := "No messages provided" } ∧
    (∀ env2 : Env, ∀ cache2 : Cache,
      (chat env2 cache2 { messages := [], model := m }).2.2 = []) := by
  refine ⟨rfl, ?_, ?_⟩
  · rcases hl : lazyInit env cache (resolveModel m) with ⟨mn, c2⟩
    rw [hl] at hhandle
    simp [chat, hl, hhandle]
  · intro env2 cache2
    rcases hl : lazyInit env2 cache2 (resolveModel m) with ⟨mn, c2⟩
    rcases hk : dictGet c2 mn with _ | inst
    · simp [chat, hl, hk]
    rcases inst with _ | u <;> simp [chat, hl, hk]

/-- C4 witness: the empty request is rejected with a validation error and
a 400, with no provider call, for a concrete healthy relay state. -/
theorem chat_empty_messages_rejected_witness :
    mkChatRequest [] (some "gemini-1.5-pro") = .error .emptyMessages ∧
    (chat { initModel := fun _ => .ok (), generate := fun _ _ => .ok "hi" }
        [(DEFAULT_MODEL, some ())]
        { messages := [], model := some "gemini-1.5-pro" }).1
      = .httpError { status_code := 400, detail := "No messages provided" } ∧
    (∀ env2 : Env, ∀ cache2 : Cache,
      (chat env2 cache2
        { messages := [], model := some "gemini-1.5-pro" }).2.2 = []) :=
  chat_empty_messages_rejected
    { initModel := fun _ => .ok (), generate := fun _ _ => .ok "hi" }
    [(DEFAULT_MODEL, some ())]
    (some "gemini-1.5-pro")
    rfl

/-- The identifiers reported by `/health` are, for a cache with distinct
keys, exactly those whose stored instance is a live handle. -/
theorem mem_available_models_iff (cache : Cache) (name : String)
    (hnodup : (cache.map Prod.fst).Nodup) :
    name ∈ (cache.filter (fun p => p.2.isSome)).map (fun p => p.1) ↔
      dictGet cache name = some (some ()) := by
  induction cache with
  | nil => simp [dictGet]
  | cons hd tl ih =>
    obtain ⟨k, v⟩ := hd
    simp only [List.map_cons, List.nodup_cons] at hnodup
    have hknot := hnodup.1
    have ih := ih hnodup.2
    by_cases hn : name = k
    · subst hn
      cases v with
      | none =>
        have hno : ¬ name ∈ (tl.filter (fun p => p.2.isSome)).map
            (fun p => p.1) := by
          intro hmem
          rcases List.mem_map.mp hmem with ⟨p, hp, hpe⟩
          exact hknot (hpe ▸ List.mem_map_of_mem Prod.fst
            (List.mem_filter.mp hp).1)
        simp [List.filter_cons, dictGet, hno]
      | some u =>
        cases u
        simp [List.filter_cons, dictGet]
    · cases v with
      | none => simpa [List.filter_cons, dictGet, hn] using ih
      | some u => simpa [List.filter_cons, dictGet, hn] using ih

/-- C5: `/health` always reports status healthy, the default model and the
fixed version, and lists an identifier exactly when its handle
initialized successfully. -/
theorem health_check_always_healthy (cache : Cache) (name : String)
    (hnodup : (cache.map Prod.fst).Nodup) :
    (health_check cache).status = "healthy" ∧
    (health_check cache).model = DEFAULT_MODEL ∧
    (health_check cache).version = "1.0.0" ∧
    (name ∈ (health_check cache).available_models ↔
      dictGet cache name = some (some ())) := by
  exact ⟨rfl, rfl, rfl, mem_available_models_iff cache name hnodup⟩

/-- C5 witness: a cache with one live and one failed handle reports
healthy, the default model, version 1.0.0, and lists the live one. -/
theorem health_check_always_healthy_witness :
    (health_check [("gemini-1.5-flash", some ()), ("gemini-1.5-pro", none)]).status
        = "healthy" ∧
    (health_check [("gemini-1.5-flash", some ()), ("gemini-1.5-pro", none)]).model
        = DEFAULT_MODEL ∧
    (health_check [("gemini-1.5-flash", some ()), ("gemini-1.5-pro", none)]).version
        = "1.0.0" ∧
    ("gemini-1.5-flash" ∈ (health_check
        [("gemini-1.5-flash", some ()), ("gemini-1.5-pro", none)]).available_models ↔
      dictGet [("gemini-1.5-flash", some ()), ("gemini-1.5-pro", none)]
          "gemini-1.5-flash" = some (some ())) :=
  health_check_always_healthy
    [("gemini-1.5-flash", some ()), ("gemini-1.5-pro", none)]
    "gemini-1.5-flash"
    (by decide)

/-- C6: when the resolved model's cached handle is `None`, `/chat` answers
503 with a message naming that model, and performs no provider call. -/
theorem chat_unavailable_model_503 (env : Env) (cache : Cache) (req : ChatRequest)
    (h : dictGet (lazyInit env cache (resolveModel req.model)).2
        (lazyInit env cache (resolveModel req.model)).1 = some none) :
    (chat env cache req).1 = .httpError { status_code := 503,
                                          detail := unavailableDetail
                                            (lazyInit env cache
                                              (resolveModel req.model)).1 } ∧
    (chat env cache req).2.2 = [] := by
  rcases hl : lazyInit env cache (resolveModel req.model) with ⟨mn, c2⟩
  rw [hl] at h
  constructor <;> simp [chat, hl, h]

/-- C6 witness: with the default handle stored as `None`, a concrete chat
request gets a 503 naming the default model and no provider call. -/
theorem chat_unavailable_model_503_witness :
    (chat { initModel := fun _ => .error "no api key",
            generate := fun _ _ => .error "unreachable" }
        [(DEFAULT_MODEL, none)]
        { messages := [{ role := .user, content := "hello" }],
          model := some "gemini-1.5-flash" }).1
      = .httpError { status_code := 503,
                     detail := unavailableDetail
                       (lazyInit { initModel := fun _ => .error "no api key",
                                   generate := fun _ _ => .error "unreachable" }
                         [(DEFAULT_MODEL, none)]
                         (resolveModel (some "gemini-1.5-flash"))).1 } ∧
    (chat { initModel := fun _ => .error "no api key",
            generate := fun _ _ => .error "unreachable" }
        [(DEFAULT_MODEL, none)]
        { messages := [{ role := .user, content := "hello" }],
          model := some "gemini-1.5-flash" }).2.2 = [] :=
  chat_unavailable_model_503
    { initModel := fun _ => .error "no api key",
      generate := fun _ _ => .error "unreachable" }
    [(DEFAULT_MODEL, none)]
    { messages := [{ role := .user, content := "hello" }],
      model := some "gemini-1.5-flash" }
    rfl

/-- C7: when the provider round trip raises, `/chat` answers 500 with the
provider's error text verbatim, after exactly one provider call. -/
theorem chat_upstream_error_500 (env : Env) (cache : Cache) (req : ChatRequest)
    (last : ChatMessage) (e : String)
    (hhandle : dictGet (lazyInit env cache (resolveModel req.model)).2
        (lazyInit env cache (resolveModel req.model)).1 = some (some ()))
    (hlast : req.messages.getLast? = some last)
    (hgen : env.generate (formatHistory req.messages) last.content = .error e) :
    (chat env cache req).1 = .httpError { status_code := 500, detail := e } ∧
    (chat env cache req).2.2.length = 1 := by
  have hne : req.messages ≠ [] := by
    intro hnil
    rw [hnil] at hlast
    simp at hlast
  have hemp : req.messages.isEmpty = false := by
    simpa [List.isEmpty_iff] using hne
  rcases hl : lazyInit env cache (resolveModel req.model) with ⟨mn, c2⟩
  rw [hl] at hhandle
  constructor <;> simp [chat, hl, hhandle, hemp, hlast, hgen]

/-- C7 witness: a provider failing with "429 quota exceeded" yields a 500
whose detail is that very text, after a single provider call. -/
theorem chat_upstream_error_500_witness :
    (chat { initModel := fun _ => .ok (),
            generate := fun _ _ => .error "429 quota exceeded" }
        [(DEFAULT_MODEL, some ())]
        { messages := [{ role := .user, content := "hello" }],
          model := some "gemini-1.5-flash" }).1
      = .httpError { status_code := 500, detail := "429 quota exceeded" } ∧
    (chat { initModel := fun _ => .ok (),
            generate := fun _ _ => .error "429 quota exceeded" }
        [(DEFAULT_MODEL, some ())]
        { messages := [{ role := .user, content := "hello" }],
          model := some "gemini-1.5-flash" }).2.2.length = 1 :=
  chat_upstream_error_500
    { initModel := fun _ => .ok (),
      generate := fun _ _ => .error "429 quota exceeded" }
    [(DEFAULT_MODEL, some ())]
    { messages := [{ role := .user, content := "hello" }],
      model := some "gemini-1.5-flash" }
    { role := .user, content := "hello" }
    "429 quota exceeded"
    rfl
    rfl
    rfl

/-- C8: constructing a `ChatMessage` fails with the blank-content error
exactly when the content is empty or all whitespace, and succeeds, keeping
the content unchanged, exactly when some character is not whitespace. -/
theorem chatMessage_blank_content_validation (role : MessageRole) (content : String) :
    (mkChatMessage role content = .error .blankContent ↔
      content.toList.all isPySpace = true) ∧
    (mkChatMessage role content = .ok { role := role, content := content } ↔
      content.toList.all isPySpace = false) := by
  cases h : content.toList.all isPySpace with
  | true =>
    have hc : content_not_empty content = .error .blankContent := by
      unfold content_not_empty
      rw [h]
      simp
    have hm : mkChatMessage role content = .error .blankContent := by
      unfold mkChatMessage
      rw [hc]
    rw [hm]
    simp
  | false =>
    have hc : content_not_empty content = .ok content := by
      unfold content_not_empty
      rw [h]
      simp
    have hm : mkChatMessage role content
        = .ok { role := role, content := content } := by
      unfold mkChatMessage
      rw [hc]
    rw [hm]
    simp

/-- C9: a `ModelsResponse` construction that succeeds carries a `count`
equal to the length of `available_models`, whatever count was supplied. -/
theorem modelsResponse_count_eq_length (models : List ModelInfo) (v : Nat)
    (r : ModelsResponse) (h : mkModelsResponse models (some v) = .ok r) :
    r.count = r.available_models.length ∧ r.available_models = models := by
  unfold mkModelsResponse at h
  injection h with h
  subst h
  exact ⟨rfl, rfl⟩

/-- C9 witness: supplying count 99 for a one-element list still yields
count 1. -/
theorem modelsResponse_count_eq_length_witness :
    ({ available_models := [{ name := "models/gemini-1.5-flash",
                              display_name := "Gemini 1.5 Flash",
                              description := none }],
       count := 1 } : ModelsResponse).count
      = ({ available_models := [{ name := "models/gemini-1.5-flash",
                                  display_name := "Gemini 1.5 Flash",
                                  description := none }],
           count := 1 } : ModelsResponse).available_models.length ∧
    ({ available_models := [{ name := "models/gemini-1.5-flash",
                              display_name := "Gemini 1.5 Flash",
                              description := none }],
       count := 1 } : ModelsResponse).available_models
      = [{ name := "models/gemini-1.5-flash",
           display_name := "Gemini 1.5 Flash",
           description := none }] :=
  modelsResponse_count_eq_length
    [{ name := "models/gemini-1.5-flash",
       display_name := "Gemini 1.5 Flash",
       description := none }]
    99
    { available_models := [{ name := "models/gemini-1.5-flash",
                             display_name := "Gemini 1.5 Flash",
                             description := none }],
      count := 1 }
    rfl

/-- C10: the default model is seeded into the cache at startup; whenever
the default identifier is a cache key, the model name left by resolution
and lazy initialization is itself a cache key, so the handle subscript in
`/chat` never raises an uncaught `KeyError`. -/
theorem chat_handle_lookup_total (env env0 : Env) (cache : Cache) (req : ChatRequest)
    (hdef : (dictGet cache DEFAULT_MODEL).isSome = true) :
    (dictGet (startupCache env0) DEFAULT_MODEL).isSome = true ∧
    (dictGet (lazyInit env cache (resolveModel req.model)).2
        (lazyInit env cache (resolveModel req.model)).1).isSome = true ∧
    (chat env cache req).1.isPythonError = false := by
  have h1 : (dictGet (startupCache env0) DEFAULT_MODEL).isSome = true := by
    rcases h0 : env0.initModel DEFAULT_MODEL with e | u <;>
      simp [startupCache, h0, dictGet]
  have h2 : (dictGet (lazyInit env cache (resolveModel req.model)).2
      (lazyInit env cache (resolveModel req.model)).1).isSome = true := by
    unfold lazyInit
    rcases hg : dictGet cache (resolveModel req.model) with _ | inst
    · rcases hi : env.initModel (resolveModel req.model) with e | u
      · simpa [hg, hi] using hdef
      · simp [hg, hi, dictGet]
    · simp [hg]
  refine ⟨h1, h2, ?_⟩
  rcases hl : lazyInit env cache (resolveModel req.model) with ⟨mn, c2⟩
  rw [hl] at h2
  rcases hk : dictGet c2 mn with _ | inst
  · rw [hk] at h2
    simp at h2
  rcases inst with _ | u
  · simp [chat, hl, hk, ChatOutcome.isPythonError]
  by_cases he : req.messages.isEmpty
  · simp [chat, hl, hk, he, ChatOutcome.isPythonError]
  rcases hlast : req.messages.getLast? with _ | last
  · simp [chat, hl, hk, he, hlast, ChatOutcome.isPythonError]
  rcases hgen : env.generate (formatHistory req.messages) last.content with e | text <;>
    simp [chat, hl, hk, he, hlast, hgen, ChatOutcome.isPythonError]

/-- C10 witness: with the startup-seeded cache and an init-refusing
provider, an unsupported requested model still finds a cache key and the
call does not raise an uncaught exception. -/
theorem chat_handle_lookup_total_witness :
    (dictGet (startupCache { initModel := fun _ => .error "down",
                             generate := fun _ _ => .error "down" })
        DEFAULT_MODEL).isSome = true ∧
    (dictGet (lazyInit { initModel := fun _ => .error "down",
                         generate := fun _ _ => .error "down" }
        [(DEFAULT_MODEL, some ())]
        (resolveModel (some "unknown-model"))).2
      (lazyInit { initModel := fun _ => .error "down",
                  generate := fun _ _ => .error "down" }
        [(DEFAULT_MODEL, some ())]
        (resolveModel (some "unknown-model"))).1).isSome = true ∧
    (chat { initModel := fun _ => .error "down",
            generate := fun _ _ => .error "down" }
        [(DEFAULT_MODEL, some ())]
        { messages := [{ role := .user, content := "hello" }],
          model := some "unknown-model" }).1.isPythonError = false :=
  chat_handle_lookup_total
    { initModel := fun _ => .error "down", generate := fun _ _ => .error "down" }
    { initModel := fun _ => .error "down", generate := fun _ _ => .error "down" }
    [(DEFAULT_MODEL, some ())]
    { messages := [{ role := .user, content := "hello" }],
      model := some "unknown-model" }
    rfl

end Gemini
